import Mathlib

/-!
Verification of the inference-orchestration pipeline of the
AI-Vision-Recipe-Generator repository, as specified in `spec.md`.

The definitions below are a shallow embedding of the relevant parts of
`src/app.py` and `src/models.py`: pure string assembly is translated
directly; model calls (caption, classification, text generation) are
passed in as explicit outcome values (`Option ...`, where `none` models
the call raising an exception that the surrounding `try`/`except`
catches); the exponential used by softmax is an abstract positive
function parameter.  Floating-point numbers are modelled as rationals.
-/

set_option maxRecDepth 10000

namespace RecipeGen

/-- Boolean contiguous-substring test; models Python's `needle in hay` on strings. -/
def containsSub (needle hay : String) : Bool :=
  hay.data.tails.any (fun t => needle.data.isPrefixOf t)

/-- Number of start positions at which `needle` occurs in `hay`. -/
def countOccur (needle hay : List Char) : Nat :=
  (hay.tails.filter (fun t => needle.isPrefixOf t)).length

/-- Lower-casing, character by character; models Python's `str.lower()` on the
ASCII data used here. -/
def lowerStr (s : String) : String := String.mk (s.data.map Char.toLower)

/-- The observable attributes of an uploaded image that `validate_image` inspects:
pixel dimensions and the byte length of its PNG re-encoding
(`image.save(img_byte_arr, format='PNG')`). -/
structure ImgData where
  width : Nat
  height : Nat
  pngBytes : Nat

/-- Embeds `validate_image` from `src/app.py` (lines 183-203).  The Python function
returns a bool and surfaces the reason through `st.error`; the pair returned here
is (return value, error message shown), `""` when no error is shown.  The byte
check `size_mb > 10` divides by the exact power of two `1024 * 1024`, so it is
equivalent to the integer comparison used here. -/
def validate_image (img : ImgData) : Bool × String :=
  if img.width < 50 ∨ img.height < 50 then
    (false, "❌ Image is too small. Please upload a larger image (at least 50x50 pixels).")
  else if 10 * 1024 * 1024 < img.pngBytes then
    (false, "❌ Image is too large. Please upload an image smaller than 10MB.")
  else
    (true, "")

/-- A row of the static nutrition table. -/
structure NutritionRecord where
  calories : String
  protein : String
  carbs : String
  fat : String
deriving DecidableEq

/-- The `nutrition_db` dict of `estimate_nutrition` (src/app.py lines 260-266), in
Python dict insertion order. -/
def nutrition_db : List (String × NutritionRecord) :=
  [("pizza", ⟨"285", "12g", "36g", "10g"⟩),
   ("burger", ⟨"540", "25g", "40g", "27g"⟩),
   ("salad", ⟨"150", "5g", "15g", "8g"⟩),
   ("pasta", ⟨"350", "13g", "60g", "7g"⟩),
   ("sushi", ⟨"200", "9g", "30g", "6g"⟩)]

/-- The default record returned when no key matches (src/app.py line 275). -/
def defaultNutrition : NutritionRecord := ⟨"~300", "~15g", "~40g", "~12g"⟩

/-- Embeds `estimate_nutrition` (src/app.py lines 257-275): the first table key, in
insertion order, that is a substring of the lower-cased dish wins; otherwise the
default record is returned. -/
def estimate_nutrition (dish : String) : NutritionRecord :=
  match nutrition_db.find? (fun kv => containsSub kv.1 (lowerStr dish)) with
  | some kv => kv.2
  | none => defaultNutrition

/-- The dietary clause both prompt builders splice before the servings line
(src/app.py line 287, src/models.py line 177). -/
def dietary_clause (pref : String) : String :=
  if pref ≠ "None" then "The recipe must be " ++ pref ++ ". " else ""

/-- The prompt assembled inside `generate_recipe` in `src/app.py` (lines 287-302). -/
def app_recipe_prompt (dish caption pref : String) (servings : Nat)
    (difficulty : String) : String :=
  "You are a professional chef. Create a detailed recipe.\n\nDish: " ++ dish ++
  "\nDescription: " ++ caption ++ "\n" ++ dietary_clause pref ++ "Servings: " ++
  toString servings ++ "\nDifficulty: " ++ difficulty ++
  "\n\nProvide:\n1. Ingredients (with exact measurements)\n2. Step-by-step instructions (numbered)\n3. Prep time and cook time\n4. Tips and variations\n\nFormat the recipe clearly and professionally."

/-- The prompt assembled inside `ModelManager.generate_recipe` in `src/models.py`
(lines 177-192). -/
def models_recipe_prompt (dish caption pref : String) (servings : Nat)
    (difficulty : String) : String :=
  "You are a professional chef. Create a detailed recipe.\n\nDish: " ++ dish ++
  "\nDescription: " ++ caption ++ "\n" ++ dietary_clause pref ++ "Servings: " ++
  toString servings ++ "\nDifficulty: " ++ difficulty ++
  "\n\nProvide a complete recipe with:\n1. Ingredients list (with exact measurements)\n2. Step-by-step cooking instructions (numbered steps)\n3. Preparation time and cooking time\n4. Helpful tips and possible variations\n\nFormat the recipe in a clear, professional manner."

/-- The exact prompt template of spec section 6, written from the spec's words to
be compared with the builders above (it is the refinement target, not source code). -/
def spec_prompt_template (dish caption pref : String) (servings : Nat)
    (difficulty : String) : String :=
  "You are a professional chef. Create a detailed recipe.\n\nDish: " ++ dish ++
  "\nDescription: " ++ caption ++ "\n" ++
  (if pref ≠ "None" then "The recipe must be " ++ pref ++ ". " else "") ++
  "Servings: " ++ toString servings ++ "\nDifficulty: " ++ difficulty ++
  "\n\nProvide a complete recipe with:\n1. Ingredients list (with exact measurements)\n2. Step-by-step cooking instructions (numbered steps)\n3. Preparation time and cooking time\n4. Helpful tips and possible variations\n\nFormat the recipe in a clear, professional manner."

/-- Tokenizer call arguments (input-side bounds) for the recipe generator. -/
structure TokenizerArgs where
  truncation : Bool
  maxLength : Nat
  padding : Bool
deriving DecidableEq

/-- Decoder generation arguments for the recipe generator. -/
structure GenerateArgs where
  maxLength : Nat
  minLength : Nat
  numBeams : Nat
  temperature : ℚ
  topP : ℚ
  repetitionPenalty : ℚ
  noRepeatNgramSize : Nat
  earlyStopping : Bool
deriving DecidableEq

/-- Tokenizer arguments of `generate_recipe` in `src/app.py` (lines 304-310). -/
def app_recipe_tokenizer_args : TokenizerArgs := ⟨true, 512, true⟩

/-- Tokenizer arguments of `ModelManager.generate_recipe` in `src/models.py`
(lines 194-200). -/
def models_recipe_tokenizer_args : TokenizerArgs := ⟨true, 512, true⟩

/-- Generation arguments of `flan_model.generate` in `src/app.py` (lines 312-321).
No `early_stopping` argument is passed there; the library default is `False`. -/
def app_recipe_generate_args : GenerateArgs := ⟨600, 200, 5, 0.8, 0.95, 1.2, 3, false⟩

/-- Generation arguments of `model.generate` in `src/models.py` (lines 202-212),
where `early_stopping=True` is passed explicitly. -/
def models_recipe_generate_args : GenerateArgs := ⟨600, 200, 5, 0.8, 0.95, 1.2, 3, true⟩

/-- Generation arguments as the spec's words describe them (section 4.6), for
comparison with the two call sites above. -/
def spec_recipe_generate_args : GenerateArgs := ⟨600, 200, 5, 0.8, 0.95, 1.2, 3, true⟩

/-- Input-side bounds as the spec's words describe them (section 4.6): input
truncated/padded to a maximum of 512 tokens. -/
def spec_recipe_tokenizer_args : TokenizerArgs := ⟨true, 512, true⟩

/-- Softmax over the logits of a labelled class list: logit x maps to e x / Σ e,
where `e` stands for the exponential used by `torch.nn.functional.softmax`
(kept abstract; the proofs only use its positivity). -/
def softmaxProbs (e : ℚ → ℚ) (classes : List (String × ℚ)) : List (String × ℚ) :=
  classes.map (fun c => (c.1, e c.2 / (classes.map (fun d => e d.2)).sum))

/-- Descending order on (label, confidence) pairs, used to model `torch.topk`. -/
def probGE (a b : String × ℚ) : Prop := b.2 ≤ a.2

instance : DecidableRel probGE := fun a b => inferInstanceAs (Decidable (b.2 ≤ a.2))

instance : IsTotal (String × ℚ) probGE := ⟨fun a b => le_total b.2 a.2⟩

instance : IsTrans (String × ℚ) probGE := ⟨fun _ _ _ hab hbc => le_trans hbc hab⟩

/-- Models `torch.topk(probs, k)` followed by the `id2label` zip in `classify_food`:
the k highest-probability entries in descending order of confidence. -/
def topkSoftmax (e : ℚ → ℚ) (classes : List (String × ℚ)) (k : Nat) :
    List (String × ℚ) :=
  (List.insertionSort probGE (softmaxProbs e classes)).take k

/-- Embeds `classify_food` (src/app.py lines 229-255).  `mres` is the outcome of
the model call (`none` when the call raised); `torch.topk` raises when `k` exceeds
the number of classes, and any exception inside the `try` block produces the
fallback `[("Unknown", 0.0)]`. -/
def classify_food (e : ℚ → ℚ) (mres : Option (List (String × ℚ))) (k : Nat) :
    List (String × ℚ) :=
  match mres with
  | none => [("Unknown", 0)]
  | some classes =>
    if classes.length < k then [("Unknown", 0)]
    else topkSoftmax e classes k

/-- Embeds `generate_caption` (src/app.py lines 205-227): `mres` is the decoded
model output, `none` when the call raised; the `except` branch returns the
placeholder string. -/
def generate_caption (mres : Option String) : String :=
  match mres with
  | some c => c
  | none => "Unable to generate caption"

/-- Embeds `generate_recipe` (src/app.py lines 277-331): builds the prompt, runs
the generation model on it (`model` returns `none` when the call raised), and
falls back to the placeholder string on failure. -/
def generate_recipe (model : String → Option String) (dish caption pref : String)
    (servings : Nat) (difficulty : String) : String :=
  match model (app_recipe_prompt dish caption pref servings difficulty) with
  | some r => r
  | none => "Unable to generate recipe. Please try again."

/-- Pipeline stages, in the order the orchestrator runs them. -/
inductive Stage
  | validate
  | caption
  | classify
  | genRecipe
  | nutrition
deriving DecidableEq

/-- The result bundle assembled by the analyze flow in src/app.py (lines 384-446). -/
structure RecipeResult where
  caption : String
  predictions : List (String × ℚ)
  recipe : String
  nutrition : NutritionRecord
deriving DecidableEq

/-- Embeds the orchestration flow of src/app.py (lines 384-446): validation gates
the run (`st.stop()` on failure), then caption, classification (`top_k` is 5 or 1
by the sidebar checkbox), recipe generation from the top prediction, and nutrition
lookup.  The trace lists the stages that executed; a `none` result models a run
without a result bundle (the validation stop, or the outer exception handler
firing when `food_predictions[0]` is out of range). -/
def run_pipeline (img : ImgData) (capModel : Option String) (e : ℚ → ℚ)
    (clsModel : Option (List (String × ℚ))) (showTopK : Bool)
    (recipeModel : String → Option String) (pref : String) (servings : Nat)
    (difficulty : String) : List Stage × Option RecipeResult :=
  if (validate_image img).1 = false then ([Stage.validate], none)
  else
    let cap := generate_caption capModel
    let preds := classify_food e clsModel (if showTopK then 5 else 1)
    match preds with
    | [] => ([Stage.validate, Stage.caption, Stage.classify], none)
    | (dish, c) :: rest =>
      ([Stage.validate, Stage.caption, Stage.classify, Stage.genRecipe,
        Stage.nutrition],
       some ⟨cap, (dish, c) :: rest,
             generate_recipe recipeModel dish cap pref servings difficulty,
             estimate_nutrition dish⟩)

/-- Embeds the export document `recipe_text` (src/app.py lines 530-551): the exact
f-string, with its leading newline, `"=" * 50` separator, conditional dietary
line, and trailing attribution line. -/
def recipe_text (dish : String) (servings : Nat) (difficulty pref caption : String)
    (nut : NutritionRecord) (recipe : String) : String :=
  "\n" ++ dish ++ "\n" ++ String.mk (List.replicate 50 '=') ++ "\n\nServings: " ++
  toString servings ++ "\nDifficulty: " ++ difficulty ++ "\n" ++
  (if pref ≠ "None" then "Dietary: " ++ pref else "") ++ "\n\nImage Description: " ++
  caption ++ "\n\nNUTRITIONAL INFORMATION (per serving):\n- Calories: " ++
  nut.calories ++ "\n- Protein: " ++ nut.protein ++ "\n- Carbs: " ++ nut.carbs ++
  "\n- Fat: " ++ nut.fat ++ "\n\nRECIPE:\n" ++ recipe ++
  "\n\n---\nGenerated by AI Vision Recipe Generator\n"

/-! Helper lemmas about substring occurrence counting. -/

theorem countOccur_nil (needle : List Char) (h : needle ≠ []) :
    countOccur needle [] = 0 := by
  cases needle with
  | nil => exact absurd rfl h
  | cons a l => simp [countOccur, List.isPrefixOf]

theorem countOccur_cons (needle : List Char) (a : Char) (hay : List Char) :
    countOccur needle (a :: hay) =
      (if needle.isPrefixOf (a :: hay) then 1 else 0) + countOccur needle hay := by
  simp only [countOccur, List.tails, List.filter_cons]
  split
  · simp [Nat.add_comm]
  · simp

theorem isPrefixOf_eq_false_of_disjoint (needle : List Char) (hne : needle ≠ [])
    (post : List Char) (hpost : ∀ ch ∈ needle, ch ∉ post) :
    needle.isPrefixOf post = false := by
  cases needle with
  | nil => exact absurd rfl hne
  | cons n0 nt =>
    cases post with
    | nil => simp [List.isPrefixOf]
    | cons x rest =>
      by_contra hb
      rw [Bool.not_eq_false, List.isPrefixOf_iff_prefix, List.cons_prefix_cons] at hb
      exact hpost n0 (by simp) (by simp [hb.1])

theorem countOccur_eq_zero_of_disjoint (needle : List Char) (hne : needle ≠ []) :
    ∀ post : List Char, (∀ ch ∈ needle, ch ∉ post) → countOccur needle post = 0 := by
  intro post
  induction post with
  | nil => intro _; exact countOccur_nil needle hne
  | cons x rest ih =>
    intro hpost
    rw [countOccur_cons, isPrefixOf_eq_false_of_disjoint needle hne _ hpost]
    simpa using ih fun ch hch hmem => hpost ch hch (List.mem_cons_of_mem x hmem)

theorem isPrefixOf_append_eq_false_of_short (needle s post : List Char)
    (hlen : s.length < needle.length) (hpost : ∀ ch ∈ needle, ch ∉ post) :
    needle.isPrefixOf (s ++ post) = false := by
  by_contra hb
  rw [Bool.not_eq_false, List.isPrefixOf_iff_prefix] at hb
  have hs : s <+: needle :=
    List.prefix_of_prefix_length_le (List.prefix_append s post) hb (le_of_lt hlen)
  obtain ⟨r, hr⟩ := hs
  have hrne : r ≠ [] := by
    intro h0
    rw [h0, List.append_nil] at hr
    rw [hr] at hlen
    exact lt_irrefl _ hlen
  rw [← hr] at hb
  have hrpost : r <+: post := (List.prefix_append_right_inj s).mp hb
  cases r with
  | nil => exact hrne rfl
  | cons c r' =>
    have hc_post : c ∈ post := hrpost.subset (by simp)
    have hc_needle : c ∈ needle := by rw [← hr]; simp
    exact hpost c hc_needle hc_post

theorem countOccur_eq_zero_of_short (needle post : List Char) (hne : needle ≠ [])
    (hpost : ∀ ch ∈ needle, ch ∉ post) :
    ∀ s : List Char, s.length < needle.length → countOccur needle (s ++ post) = 0 := by
  intro s
  induction s with
  | nil => intro _; exact countOccur_eq_zero_of_disjoint needle hne post hpost
  | cons x s' ih =>
    intro hlen
    rw [List.cons_append, countOccur_cons,
      show x :: (s' ++ post) = (x :: s') ++ post from rfl,
      isPrefixOf_append_eq_false_of_short needle (x :: s') post hlen hpost]
    simpa using ih (by simp at hlen ⊢; omega)

theorem isPrefixOf_append_self (needle post : List Char) :
    needle.isPrefixOf (needle ++ post) = true := by
  rw [List.isPrefixOf_iff_prefix]
  exact List.prefix_append needle post

theorem countOccur_self_append (needle post : List Char) (hne : needle ≠ [])
    (hpost : ∀ ch ∈ needle, ch ∉ post) :
    countOccur needle (needle ++ post) = 1 := by
  cases hn : needle with
  | nil => exact absurd hn hne
  | cons n0 nt =>
    subst hn
    rw [List.cons_append, countOccur_cons,
      show n0 :: (nt ++ post) = (n0 :: nt) ++ post from rfl, isPrefixOf_append_self]
    have hz := countOccur_eq_zero_of_short (n0 :: nt) post hne hpost nt (by simp)
    simp [hz]

theorem countOccur_surround (needle pre post : List Char) (hne : needle ≠ [])
    (hpre : ∀ ch ∈ needle, ch ∉ pre) (hpost : ∀ ch ∈ needle, ch ∉ post) :
    countOccur needle (pre ++ needle ++ post) = 1 := by
  induction pre with
  | nil => simpa using countOccur_self_append needle post hne hpost
  | cons x pre' ih =>
    have hx : needle.isPrefixOf (x :: (pre' ++ needle ++ post)) = false := by
      cases needle with
      | nil => exact absurd rfl hne
      | cons n0 nt =>
        by_contra hb
        rw [Bool.not_eq_false, List.isPrefixOf_iff_prefix, List.cons_prefix_cons] at hb
        exact hpre n0 (by simp) (by simp [hb.1])
    rw [show (x :: pre') ++ needle ++ post = x :: (pre' ++ needle ++ post) by simp,
      countOccur_cons, hx]
    simpa using ih fun ch hch hmem => hpre ch hch (List.mem_cons_of_mem x hmem)

theorem containsSub_surround (needle pre post : String) :
    containsSub needle (pre ++ needle ++ post) = true := by
  unfold containsSub
  rw [List.any_eq_true]
  refine ⟨needle.data ++ post.data, ?_, ?_⟩
  · rw [List.mem_tails]
    refine ⟨pre.data, ?_⟩
    simp [String.data_append, List.append_assoc]
  · rw [List.isPrefixOf_iff_prefix]
    exact List.prefix_append _ _

/-! Helper lemmas about the classifier and the orchestrator. -/

theorem length_topkSoftmax (e : ℚ → ℚ) (classes : List (String × ℚ)) (k : Nat) :
    (topkSoftmax e classes k).length = min k classes.length := by
  unfold topkSoftmax
  rw [List.length_take, List.length_insertionSort]
  unfold softmaxProbs
  rw [List.length_map]

theorem classify_food_ne_nil (e : ℚ → ℚ) (mres : Option (List (String × ℚ)))
    (k : Nat) (hk : 1 ≤ k) : classify_food e mres k ≠ [] := by
  match mres with
  | none => simp [classify_food]
  | some classes =>
    simp only [classify_food]
    split
    · simp
    · next hlt =>
      intro h
      have hlen := congrArg List.length h
      rw [length_topkSoftmax] at hlen
      simp only [List.length_nil, Nat.min_def] at hlen
      split at hlen <;> omega

theorem run_pipeline_success (img : ImgData) (capModel : Option String) (e : ℚ → ℚ)
    (clsModel : Option (List (String × ℚ))) (showTopK : Bool)
    (recipeModel : String → Option String) (pref : String) (servings : Nat)
    (difficulty : String) (hv : (validate_image img).1 = true) :
    ∃ r : RecipeResult,
      run_pipeline img capModel e clsModel showTopK recipeModel pref servings
          difficulty =
        ([Stage.validate, Stage.caption, Stage.classify, Stage.genRecipe,
          Stage.nutrition], some r) ∧
      (capModel = none → r.caption = "Unable to generate caption") ∧
      (clsModel = none → r.predictions = [("Unknown", 0)]) ∧
      ((∀ p, recipeModel p = none) →
        r.recipe = "Unable to generate recipe. Please try again.") := by
  have hk : 1 ≤ (if showTopK then 5 else 1) := by cases showTopK <;> simp
  have hne := classify_food_ne_nil e clsModel (if showTopK then 5 else 1) hk
  rcases hcf : classify_food e clsModel (if showTopK then 5 else 1) with _ | ⟨⟨dish, c⟩, rest⟩
  · exact absurd hcf hne
  · refine ⟨⟨generate_caption capModel, (dish, c) :: rest,
      generate_recipe recipeModel dish (generate_caption capModel) pref servings
        difficulty, estimate_nutrition dish⟩, ?_, ?_, ?_, ?_⟩
    · simp only [run_pipeline, hv, hcf]
      rfl
    · intro hcap
      subst hcap
      rfl
    · intro hcls
      subst hcls
      rw [← hcf]
      rfl
    · intro hrec
      show generate_recipe recipeModel dish (generate_caption capModel) pref servings
        difficulty = _
      unfold generate_recipe
      rw [hrec]

/-! Claim theorems. -/

/-- C2: for every image, `validate_image` yields a pair (ok, reason): a dimension
below 50 yields not-ok with a reason containing "too small"; once the dimension
check passes, a PNG re-encoding larger than 10 MB yields not-ok with a reason
containing "too large" (the dimension check runs first, and no real image can be
both below 50 px and above 10 MB); an image within both bounds yields ok with an
empty reason. -/
theorem C2_validate_image_bounds (img : ImgData) :
    (img.width < 50 ∨ img.height < 50 →
      (validate_image img).1 = false ∧
      containsSub "too small" (validate_image img).2 = true) ∧
    (50 ≤ img.width → 50 ≤ img.height → 10 * 1024 * 1024 < img.pngBytes →
      (validate_image img).1 = false ∧
      containsSub "too large" (validate_image img).2 = true) ∧
    (50 ≤ img.width → 50 ≤ img.height → img.pngBytes ≤ 10 * 1024 * 1024 →
      validate_image img = (true, "")) := by
  refine ⟨?_, ?_, ?_⟩
  · intro hcase
    simp only [validate_image, if_pos hcase]
    exact ⟨trivial, by decide⟩
  · intro hw hh hb
    have h1 : ¬(img.width < 50 ∨ img.height < 50) := by omega
    simp only [validate_image, if_neg h1, if_pos hb]
    exact ⟨trivial, by decide⟩
  · intro hw hh hb
    have h1 : ¬(img.width < 50 ∨ img.height < 50) := by omega
    have h2 : ¬(10 * 1024 * 1024 < img.pngBytes) := by omega
    simp only [validate_image, if_neg h1, if_neg h2]

/-- Witness for C2 at a 30-by-100 image of 5 bytes. -/
theorem C2_validate_image_bounds_witness :
    (validate_image ⟨30, 100, 5⟩).1 = false ∧
    containsSub "too small" (validate_image ⟨30, 100, 5⟩).2 = true :=
  (C2_validate_image_bounds ⟨30, 100, 5⟩).1 (Or.inl (by decide))

/-- C6: `estimate_nutrition "pizza"` has calories "285"; a dish whose lower-cased
form contains no table key receives the fixed default record, whose four values
all carry the "~" prefix; and the function is total: every result is either a
table row or that default. -/
theorem C6_estimate_nutrition_spec :
    (estimate_nutrition "pizza").calories = "285" ∧
    (∀ dish : String,
      (∀ kv ∈ nutrition_db, containsSub kv.1 (lowerStr dish) = false) →
      estimate_nutrition dish = defaultNutrition) ∧
    ("~".data.isPrefixOf defaultNutrition.calories.data = true ∧
     "~".data.isPrefixOf defaultNutrition.protein.data = true ∧
     "~".data.isPrefixOf defaultNutrition.carbs.data = true ∧
     "~".data.isPrefixOf defaultNutrition.fat.data = true) ∧
    (∀ dish : String, estimate_nutrition dish = defaultNutrition ∨
      ∃ kv ∈ nutrition_db, estimate_nutrition dish = kv.2) := by
  refine ⟨by decide, ?_, by decide, ?_⟩
  · intro dish hnone
    unfold estimate_nutrition
    have hf : nutrition_db.find? (fun kv => containsSub kv.1 (lowerStr dish)) = none := by
      rw [List.find?_eq_none]
      intro kv hkv
      simp [hnone kv hkv]
    rw [hf]
  · intro dish
    unfold estimate_nutrition
    cases hf : nutrition_db.find? (fun kv => containsSub kv.1 (lowerStr dish)) with
    | none => exact Or.inl rfl
    | some kv => exact Or.inr ⟨kv, List.mem_of_find?_eq_some hf, rfl⟩

/-- Witness for C6 at the unmatched dish "qqq". -/
theorem C6_estimate_nutrition_spec_witness :
    estimate_nutrition "qqq" = defaultNutrition :=
  C6_estimate_nutrition_spec.2.1 "qqq" (by decide)

/-- C10 counterexample: the dish "Pizza salad pasta" contains both "salad" and
"pasta" as substrings, yet `estimate_nutrition` returns the pizza record
(calories "285"), not the salad record, because "pizza" is checked first. -/
theorem C10_salad_pasta_counterexample :
    containsSub "salad" (lowerStr "Pizza salad pasta") = true ∧
    containsSub "pasta" (lowerStr "Pizza salad pasta") = true ∧
    estimate_nutrition "Pizza salad pasta" = ⟨"285", "12g", "36g", "10g"⟩ ∧
    estimate_nutrition "Pizza salad pasta" ≠ ⟨"150", "5g", "15g", "8g"⟩ := by
  refine ⟨by decide, by decide, by decide, by decide⟩

/-- C10 (amended): the table keys are checked in the fixed order pizza, burger,
salad, pasta, sushi with the first matching key winning; hence a dish containing
"salad" but neither "pizza" nor "burger" always receives the salad record
(calories "150"), never the pasta record, regardless of whether "pasta" also
occurs. -/
theorem C10_fixed_order_first_match :
    nutrition_db.map Prod.fst = ["pizza", "burger", "salad", "pasta", "sushi"] ∧
    (∀ dish : String,
      containsSub "pizza" (lowerStr dish) = false →
      containsSub "burger" (lowerStr dish) = false →
      containsSub "salad" (lowerStr dish) = true →
      estimate_nutrition dish = ⟨"150", "5g", "15g", "8g"⟩) := by
  refine ⟨rfl, ?_⟩
  intro dish h1 h2 h3
  unfold estimate_nutrition nutrition_db
  rw [List.find?_cons_of_neg _ (by simp [h1]), List.find?_cons_of_neg _ (by simp [h2]),
    List.find?_cons_of_pos _ (by simp [h3])]

/-- Witness for C10 (amended) at the dish "salad pasta". -/
theorem C10_fixed_order_first_match_witness :
    estimate_nutrition "salad pasta" = ⟨"150", "5g", "15g", "8g"⟩ :=
  C10_fixed_order_first_match.2 "salad pasta" (by decide) (by decide) (by decide)

/-- C7 counterexample: the generation call in `src/app.py` does not enable early
stopping, so its argument record differs from the spec's parameter list, which
requires early stopping enabled. -/
theorem C7_early_stopping_counterexample :
    app_recipe_generate_args.earlyStopping = false ∧
    spec_recipe_generate_args.earlyStopping = true ∧
    app_recipe_generate_args ≠ spec_recipe_generate_args := by
  refine ⟨rfl, rfl, ?_⟩
  intro h
  have hb := congrArg GenerateArgs.earlyStopping h
  simp [app_recipe_generate_args, spec_recipe_generate_args] at hb

/-- C7 (amended): `ModelManager.generate_recipe` in `src/models.py` invokes text
generation with exactly the spec's parameters (input bound 512 with truncation
and padding, output length in [200, 600], 5 beams, temperature 0.8, top-p 0.95,
repetition penalty 1.2, no-repeat n-gram size 3, early stopping enabled), while
the `generate_recipe` call in `src/app.py` passes the same parameters except
that it omits `early_stopping`, leaving it at the library default `False`. -/
theorem C7_generation_parameters :
    models_recipe_generate_args = spec_recipe_generate_args ∧
    models_recipe_tokenizer_args = spec_recipe_tokenizer_args ∧
    app_recipe_tokenizer_args = spec_recipe_tokenizer_args ∧
    app_recipe_generate_args.maxLength = spec_recipe_generate_args.maxLength ∧
    app_recipe_generate_args.minLength = spec_recipe_generate_args.minLength ∧
    app_recipe_generate_args.numBeams = spec_recipe_generate_args.numBeams ∧
    app_recipe_generate_args.temperature = spec_recipe_generate_args.temperature ∧
    app_recipe_generate_args.topP = spec_recipe_generate_args.topP ∧
    app_recipe_generate_args.repetitionPenalty =
      spec_recipe_generate_args.repetitionPenalty ∧
    app_recipe_generate_args.noRepeatNgramSize =
      spec_recipe_generate_args.noRepeatNgramSize ∧
    app_recipe_generate_args.earlyStopping = false := by
  refine ⟨rfl, rfl, rfl, rfl, rfl, rfl, rfl, rfl, rfl, rfl, rfl⟩

/-- C3 counterexample: at the spec's own example input, the prompt built by
`generate_recipe` in `src/app.py` does not contain the section-6 request line
"Provide a complete recipe with:" and differs from the section-6 template. -/
theorem C3_app_prompt_counterexample :
    containsSub "Provide a complete recipe with:"
      (app_recipe_prompt "Lasagna" "a plate of lasagna" "None" 4 "Medium") = false ∧
    app_recipe_prompt "Lasagna" "a plate of lasagna" "None" 4 "Medium" ≠
      spec_prompt_template "Lasagna" "a plate of lasagna" "None" 4 "Medium" := by
  exact ⟨by decide, by decide⟩

/-- C3 (amended): for every input tuple, the prompt built by
`ModelManager.generate_recipe` in `src/models.py` is exactly the fixed-structure
instruction text of spec section 6, while the prompt built by `generate_recipe`
in `src/app.py` embeds the same five fields but uses an abbreviated request list
and closing line instead of the section-6 text. -/
theorem C3_models_prompt_matches_spec (dish caption pref : String) (servings : Nat)
    (difficulty : String) :
    models_recipe_prompt dish caption pref servings difficulty =
      spec_prompt_template dish caption pref servings difficulty := by
  unfold models_recipe_prompt spec_prompt_template dietary_clause
  rfl

/-- C4: whenever the dietary preference is not "None", both built prompts contain
the literal clause "The recipe must be [pref]. " (with its trailing space); when
the preference is "None" the clause is omitted entirely — each prompt is exactly
the same text with nothing in the clause's place, the description line being
immediately followed by the servings line — and, at the spec's example input, no
"The recipe must be" text occurs in either prompt. -/
theorem C4_dietary_clause_embedding :
    (∀ dish caption pref : String, ∀ servings : Nat, ∀ difficulty : String,
      pref ≠ "None" →
      containsSub ("The recipe must be " ++ pref ++ ". ")
        (app_recipe_prompt dish caption pref servings difficulty) = true ∧
      containsSub ("The recipe must be " ++ pref ++ ". ")
        (models_recipe_prompt dish caption pref servings difficulty) = true) ∧
    (∀ dish caption : String, ∀ servings : Nat, ∀ difficulty : String,
      app_recipe_prompt dish caption "None" servings difficulty =
        "You are a professional chef. Create a detailed recipe.\n\nDish: " ++ dish ++
        "\nDescription: " ++ caption ++ "\nServings: " ++ toString servings ++
        "\nDifficulty: " ++ difficulty ++
        "\n\nProvide:\n1. Ingredients (with exact measurements)\n2. Step-by-step instructions (numbered)\n3. Prep time and cook time\n4. Tips and variations\n\nFormat the recipe clearly and professionally." ∧
      models_recipe_prompt dish caption "None" servings difficulty =
        "You are a professional chef. Create a detailed recipe.\n\nDish: " ++ dish ++
        "\nDescription: " ++ caption ++ "\nServings: " ++ toString servings ++
        "\nDifficulty: " ++ difficulty ++
        "\n\nProvide a complete recipe with:\n1. Ingredients list (with exact measurements)\n2. Step-by-step cooking instructions (numbered steps)\n3. Preparation time and cooking time\n4. Helpful tips and possible variations\n\nFormat the recipe in a clear, professional manner.") ∧
    containsSub "The recipe must be"
      (app_recipe_prompt "Lasagna" "a plate of lasagna" "None" 4 "Medium") = false ∧
    containsSub "The recipe must be"
      (models_recipe_prompt "Lasagna" "a plate of lasagna" "None" 4 "Medium") = false := by
  refine ⟨?_, ?_, by decide, by decide⟩
  · intro dish caption pref servings difficulty hp
    constructor
    · have hsplit : app_recipe_prompt dish caption pref servings difficulty =
        ("You are a professional chef. Create a detailed recipe.\n\nDish: " ++ dish ++
         "\nDescription: " ++ caption ++ "\n") ++
        ("The recipe must be " ++ pref ++ ". ") ++
        ("Servings: " ++ toString servings ++ "\nDifficulty: " ++ difficulty ++
         "\n\nProvide:\n1. Ingredients (with exact measurements)\n2. Step-by-step instructions (numbered)\n3. Prep time and cook time\n4. Tips and variations\n\nFormat the recipe clearly and professionally.") := by
        unfold app_recipe_prompt dietary_clause
        rw [if_pos hp]
        apply String.ext
        simp only [String.data_append, List.append_assoc]
      rw [hsplit]
      exact containsSub_surround _ _ _
    · have hsplit : models_recipe_prompt dish caption pref servings difficulty =
        ("You are a professional chef. Create a detailed recipe.\n\nDish: " ++ dish ++
         "\nDescription: " ++ caption ++ "\n") ++
        ("The recipe must be " ++ pref ++ ". ") ++
        ("Servings: " ++ toString servings ++ "\nDifficulty: " ++ difficulty ++
         "\n\nProvide a complete recipe with:\n1. Ingredients list (with exact measurements)\n2. Step-by-step cooking instructions (numbered steps)\n3. Preparation time and cooking time\n4. Helpful tips and possible variations\n\nFormat the recipe in a clear, professional manner.") := by
        unfold models_recipe_prompt dietary_clause
        rw [if_pos hp]
        apply String.ext
        simp only [String.data_append, List.append_assoc]
      rw [hsplit]
      exact containsSub_surround _ _ _
  · intro dish caption servings difficulty
    constructor
    · unfold app_recipe_prompt dietary_clause
      rw [if_neg (by simp)]
      apply String.ext
      simp only [String.data_append, List.append_assoc]
      rfl
    · unfold models_recipe_prompt dietary_clause
      rw [if_neg (by simp)]
      apply String.ext
      simp only [String.data_append, List.append_assoc]
      rfl

/-- Witness for C4 with the Vegetarian preference. -/
theorem C4_dietary_clause_embedding_witness :
    containsSub ("The recipe must be " ++ "Vegetarian" ++ ". ")
      (app_recipe_prompt "Lasagna" "a plate of lasagna" "Vegetarian" 4 "Medium") = true :=
  (C4_dietary_clause_embedding.1 "Lasagna" "a plate of lasagna" "Vegetarian" 4 "Medium"
    (by decide)).1

/-- C5 counterexample: with a two-label class list and k = 3, the claim demands
the (fewer) softmax-computed entries of the whole label set, but `classify_food`
models the `torch.topk` failure and returns the single fallback entry
("Unknown", 0.0), whose label is not in the label set. -/
theorem C5_topk_overflow_counterexample :
    classify_food (fun _ => 1) (some [("apple", 0), ("bread", 0)]) 3 =
      [("Unknown", 0)] ∧
    (classify_food (fun _ => 1) (some [("apple", 0), ("bread", 0)]) 3).length ≠
      min 3 [("apple", (0 : ℚ)), ("bread", 0)].length ∧
    "Unknown" ∉ ["apple", "bread"] := by
  exact ⟨by decide, by decide, by decide⟩

/-- C5 (amended): for k within the label-set size, `classify_food` returns
exactly k entries, each drawn from the softmax distribution over the model
logits, sorted in descending order of confidence, with every confidence in
[0, 1]; when k exceeds the label-set size, the `torch.topk` call fails and the
fallback [("Unknown", 0.0)] is returned instead of a truncated softmax list. -/
theorem C5_classify_topk (e : ℚ → ℚ) (classes : List (String × ℚ)) (k : Nat)
    (hpos : ∀ x, 0 < e x) (hk : 1 ≤ k) :
    (k ≤ classes.length →
      (classify_food e (some classes) k).length = k ∧
      List.Sorted probGE (classify_food e (some classes) k) ∧
      (∀ p ∈ classify_food e (some classes) k, p ∈ softmaxProbs e classes) ∧
      (∀ p ∈ classify_food e (some classes) k, 0 ≤ p.2 ∧ p.2 ≤ 1)) ∧
    (classes.length < k →
      classify_food e (some classes) k = [("Unknown", 0)]) := by
  constructor
  · intro hkn
    have hnlt : ¬classes.length < k := not_lt.mpr hkn
    have hcf : classify_food e (some classes) k = topkSoftmax e classes k := by
      simp [classify_food, hnlt]
    rw [hcf]
    have hmem : ∀ p ∈ topkSoftmax e classes k, p ∈ softmaxProbs e classes := by
      intro p hp
      have h1 : p ∈ List.insertionSort probGE (softmaxProbs e classes) :=
        List.mem_of_mem_take hp
      exact ((List.perm_insertionSort probGE _).mem_iff).mp h1
    refine ⟨?_, ?_, hmem, ?_⟩
    · rw [length_topkSoftmax]
      omega
    · exact List.Pairwise.sublist (List.take_sublist k _)
        (List.sorted_insertionSort probGE _)
    · intro p hp
      obtain ⟨c, hc, hpc⟩ := List.mem_map.mp (hmem p hp)
      have hSpos : 0 < (classes.map (fun d => e d.2)).sum := by
        apply List.sum_pos
        · intro x hx
          obtain ⟨d, _, rfl⟩ := List.mem_map.mp hx
          exact hpos _
        · apply List.ne_nil_of_length_pos
          rw [List.length_map]
          omega
      constructor
      · rw [← hpc]
        exact div_nonneg (le_of_lt (hpos _)) (le_of_lt hSpos)
      · rw [← hpc]
        show e c.2 / (classes.map (fun d => e d.2)).sum ≤ 1
        rw [div_le_one hSpos]
        apply List.single_le_sum
        · intro x hx
          obtain ⟨d, _, rfl⟩ := List.mem_map.mp hx
          exact le_of_lt (hpos _)
        · exact List.mem_map.mpr ⟨c, hc, rfl⟩
  · intro hlt
    simp [classify_food, hlt]

/-- Witness for C5 (amended) with two labels and k = 1. -/
theorem C5_classify_topk_witness :
    (classify_food (fun _ => (1 : ℚ)) (some [("apple", 0), ("bread", 0)]) 1).length = 1 :=
  ((C5_classify_topk (fun _ => 1) [("apple", 0), ("bread", 0)] 1
    (fun _ => one_pos) le_rfl).1 (by decide)).1

/-- C1: once validation has passed, the pipeline always completes with a full
result bundle, whatever the stage outcomes, absorbing each inference-stage
failure locally with its fixed placeholder: "Unable to generate caption" for the
captioner, [("Unknown", 0.0)] for the classifier, and "Unable to generate
recipe. Please try again." for the recipe generator. -/
theorem C1_stage_failures_absorbed (img : ImgData) (capModel : Option String)
    (e : ℚ → ℚ) (clsModel : Option (List (String × ℚ))) (showTopK : Bool)
    (recipeModel : String → Option String) (pref : String) (servings : Nat)
    (difficulty : String) (hv : (validate_image img).1 = true) :
    ∃ r : RecipeResult,
      run_pipeline img capModel e clsModel showTopK recipeModel pref servings
          difficulty =
        ([Stage.validate, Stage.caption, Stage.classify, Stage.genRecipe,
          Stage.nutrition], some r) ∧
      (capModel = none → r.caption = "Unable to generate caption") ∧
      (clsModel = none → r.predictions = [("Unknown", 0)]) ∧
      ((∀ p, recipeModel p = none) →
        r.recipe = "Unable to generate recipe. Please try again.") :=
  run_pipeline_success img capModel e clsModel showTopK recipeModel pref servings
    difficulty hv

/-- Witness for C1: a valid 100-by-100 image with every model call failing. -/
theorem C1_stage_failures_absorbed_witness :
    ∃ r : RecipeResult,
      run_pipeline ⟨100, 100, 5000⟩ none (fun _ => 1) none true (fun _ => none)
          "None" 4 "Medium" =
        ([Stage.validate, Stage.caption, Stage.classify, Stage.genRecipe,
          Stage.nutrition], some r) ∧
      ((none : Option String) = none → r.caption = "Unable to generate caption") ∧
      ((none : Option (List (String × ℚ))) = none →
        r.predictions = [("Unknown", 0)]) ∧
      ((∀ p : String, (fun _ => (none : Option String)) p = none) →
        r.recipe = "Unable to generate recipe. Please try again.") :=
  C1_stage_failures_absorbed ⟨100, 100, 5000⟩ none (fun _ => 1) none true
    (fun _ => none) "None" 4 "Medium" (by decide)

/-- C9: no inference stage ever runs before validation has succeeded: a
validation failure ends the run with only the validation stage executed and no
result (the only path to the Failed state), while a validated run executes
caption, classification, recipe generation and nutrition estimation in that
fixed order and always produces a result bundle, whatever the stage outcomes. -/
theorem C9_validation_gates_inference (img : ImgData) (capModel : Option String)
    (e : ℚ → ℚ) (clsModel : Option (List (String × ℚ))) (showTopK : Bool)
    (recipeModel : String → Option String) (pref : String) (servings : Nat)
    (difficulty : String) :
    ((validate_image img).1 = false →
      run_pipeline img capModel e clsModel showTopK recipeModel pref servings
        difficulty = ([Stage.validate], none)) ∧
    ((validate_image img).1 = true →
      (run_pipeline img capModel e clsModel showTopK recipeModel pref servings
        difficulty).1 =
        [Stage.validate, Stage.caption, Stage.classify, Stage.genRecipe,
          Stage.nutrition] ∧
      (run_pipeline img capModel e clsModel showTopK recipeModel pref servings
        difficulty).2.isSome = true) := by
  constructor
  · intro hv
    simp [run_pipeline, hv]
  · intro hv
    obtain ⟨r, hr, -, -, -⟩ := run_pipeline_success img capModel e clsModel showTopK
      recipeModel pref servings difficulty hv
    rw [hr]
    exact ⟨rfl, rfl⟩

/-- Witness for C9: a 30-by-30 image fails validation and runs no inference. -/
theorem C9_validation_gates_inference_witness :
    run_pipeline ⟨30, 30, 5⟩ none (fun _ => 1) none true (fun _ => none) "None" 4
      "Medium" = ([Stage.validate], none) :=
  (C9_validation_gates_inference ⟨30, 30, 5⟩ none (fun _ => 1) none true
    (fun _ => none) "None" 4 "Medium").1 (by decide)

/-- C8: the export document is exactly the in-order concatenation of its
sections — title line, 50-equals separator, servings line, difficulty line,
dietary line (whose text is present exactly when the preference is not "None"),
image description, the NUTRITIONAL INFORMATION block, "RECIPE:" with the recipe
text, and the fixed attribution trailer — and, for field values of the shapes
the pipeline produces (a nonempty dish name without newlines, servings between 1
and 12, a nonempty calories string of digits optionally prefixed with "~"), the
dish name, the servings integer and the calories string each occur exactly once
in their designated section. -/
theorem C8_export_document (dish : String) (servings : Nat)
    (difficulty pref caption : String) (nut : NutritionRecord) (recipe : String)
    (hd1 : dish.data ≠ []) (hd2 : ∀ ch ∈ dish.data, ch ≠ '\n')
    (hs1 : 1 ≤ servings) (hs2 : servings ≤ 12)
    (hc1 : nut.calories.data ≠ [])
    (hc2 : ∀ ch ∈ nut.calories.data, ch ∈ ("~0123456789").data) :
    recipe_text dish servings difficulty pref caption nut recipe =
      ("\n" ++ dish ++ "\n") ++ (String.mk (List.replicate 50 '=') ++ "\n\n") ++
      ("Servings: " ++ toString servings ++ "\n") ++
      ("Difficulty: " ++ difficulty ++ "\n") ++
      ((if pref ≠ "None" then "Dietary: " ++ pref else "") ++ "\n\n") ++
      ("Image Description: " ++ caption ++ "\n\n") ++
      ("NUTRITIONAL INFORMATION (per serving):\n") ++
      ("- Calories: " ++ nut.calories ++ "\n") ++
      ("- Protein: " ++ nut.protein ++ "\n") ++
      ("- Carbs: " ++ nut.carbs ++ "\n") ++
      ("- Fat: " ++ nut.fat ++ "\n\n") ++
      ("RECIPE:\n" ++ recipe ++ "\n\n") ++
      ("---\nGenerated by AI Vision Recipe Generator\n") ∧
    countOccur dish.data ("\n" ++ dish ++ "\n").data = 1 ∧
    countOccur (toString servings).data
      ("Servings: " ++ toString servings ++ "\n").data = 1 ∧
    countOccur nut.calories.data ("- Calories: " ++ nut.calories ++ "\n").data = 1 := by
  refine ⟨?_, ?_, ?_, ?_⟩
  · unfold recipe_text
    apply String.ext
    simp only [String.data_append, List.append_assoc]
    rfl
  · have hdata : ("\n" ++ dish ++ "\n").data = ['\n'] ++ dish.data ++ ['\n'] := by
      simp only [String.data_append]
    rw [hdata]
    apply countOccur_surround dish.data ['\n'] ['\n'] hd1
    · intro ch hch hmem
      simp at hmem
      exact hd2 ch hch hmem
    · intro ch hch hmem
      simp at hmem
      exact hd2 ch hch hmem
  · interval_cases servings <;> decide
  · have hdata : ("- Calories: " ++ nut.calories ++ "\n").data =
        "- Calories: ".data ++ nut.calories.data ++ ['\n'] := by
      simp only [String.data_append]
    rw [hdata]
    have hallow : ∀ ch ∈ ("~0123456789").data,
        ch ∉ "- Calories: ".data ∧ ch ∉ ['\n'] := by decide
    apply countOccur_surround nut.calories.data "- Calories: ".data ['\n'] hc1
    · intro ch hch
      exact (hallow ch (hc2 ch hch)).1
    · intro ch hch
      exact (hallow ch (hc2 ch hch)).2

/-- Witness for C8 at the fixed record used by the repository's own test. -/
theorem C8_export_document_witness :
    countOccur "Test Dish".data ("\n" ++ "Test Dish" ++ "\n").data = 1 ∧
    countOccur (toString (4 : Nat)).data
      ("Servings: " ++ toString (4 : Nat) ++ "\n").data = 1 ∧
    countOccur "300".data ("- Calories: " ++ "300" ++ "\n").data = 1 :=
  (C8_export_document "Test Dish" 4 "Medium" "None" "Test caption"
    ⟨"300", "15g", "40g", "10g"⟩ "Test recipe instructions" (by decide) (by decide)
    (by decide) (by decide) (by decide) (by decide)).2

end RecipeGen
